import Mathlib

/-
Shallow embedding of the authentication core of the goit_web_hw14 backend:
src/services/auth.py (token minting and verification), src/repository/users.py
(user-directory updates) and src/routes/auth.py (login, refresh, email
confirmation and password reset flows). Time is an integer count of seconds;
a token is its decoded claim set together with two flags recording whether the
serialized string parses as a three-part JWT and whether its signature verifies
under the service secret (jwt.encode is deterministic for a fixed secret and
algorithm, so equality of these values models byte-for-byte equality of the
encoded strings). Python exceptions that escape a handler are explicit Outcome
constructors.
-/

namespace GoitAuth

/-- Claim set carried by a signed token. Each field is optional because a
decoded payload is a plain dict: a missing key is none, and reading a missing
key in the Python source raises KeyError. -/
structure Claims where
  sub : Option String
  iat : Option Int
  exp : Option Int
  scope : Option String
deriving DecidableEq, Repr

/-- A presented token: its claim set plus whether the compact string parses
as header.payload.signature and whether the signature verifies under the
service SECRET_KEY and ALGORITHM of src/services/auth.py. -/
structure Token where
  claims : Claims
  sigValid : Bool
  wellFormed : Bool
deriving DecidableEq, Repr

/-- Failure kinds of jwt.decode in the python-jose dependency; every one of
them is a JWTError, which is what the except clauses in src/services/auth.py
catch. -/
inductive JoseError where
  | malformed
  | badSignature
  | expired
deriving DecidableEq, Repr

/-- Modelled from the python-jose dependency called at src/services/auth.py:
jwt.decode first parses the compact string and verifies the signature
(jws.verify) and only afterwards validates the registered claims, raising
ExpiredSignatureError when the exp claim is before the current time. A token
without an exp claim is not checked for expiry. -/
def jwtDecode (now : Int) (t : Token) : Except JoseError Claims :=
  if ¬ t.wellFormed then Except.error JoseError.malformed
  else if ¬ t.sigValid then Except.error JoseError.badSignature
  else
    match t.claims.exp with
    | some e => if e < now then Except.error JoseError.expired else Except.ok t.claims
    | none => Except.ok t.claims

/-- Result of a Python handler: a returned value, a raised HTTPException with
its status code and detail string, or an escaping KeyError / AttributeError
(which FastAPI surfaces as a 500 crash, not an HTTPException). -/
inductive Outcome (α : Type) where
  | ok (a : α)
  | httpError (statusCode : Nat) (detail : String)
  | keyError (key : String)
  | attrError (attr : String)
deriving DecidableEq, Repr

namespace auth_service

/-- Modelled from the passlib bcrypt context used by src/services/auth.py as a
deterministic injective digest; the per-call salt is abstracted away, which no
claim below depends on. -/
def get_password_hash (password : String) : String :=
  String.append "$2b$" password

/-- Auth.verify_password of src/services/auth.py: recompute and compare. -/
def verify_password (plain_password hashed_password : String) : Bool :=
  hashed_password = get_password_hash plain_password

/-- Auth.create_access_token of src/services/auth.py. The data dict is always
literally a sub entry at every call site, so the subject is taken directly.
The Python truthiness test on expires_delta treats 0 like None. -/
def create_access_token (sub : String) (expires_delta : Option Int) (now : Int) : Token :=
  let expire : Int :=
    match expires_delta with
    | some d => if d ≠ 0 then now + d else now + 15 * 60
    | none => now + 15 * 60
  { claims := { sub := some sub, iat := some now, exp := some expire,
                scope := some "access_token" },
    sigValid := true, wellFormed := true }

/-- Auth.create_refresh_token of src/services/auth.py: default lifetime is
timedelta of 7 days. -/
def create_refresh_token (sub : String) (expires_delta : Option Int) (now : Int) : Token :=
  let expire : Int :=
    match expires_delta with
    | some d => if d ≠ 0 then now + d else now + 7 * 24 * 60 * 60
    | none => now + 7 * 24 * 60 * 60
  { claims := { sub := some sub, iat := some now, exp := some expire,
                scope := some "refresh_token" },
    sigValid := true, wellFormed := true }

/-- Auth.create_email_token of src/services/auth.py: fixed lifetime of 7 days,
scope email_token. -/
def create_email_token (sub : String) (now : Int) : Token :=
  { claims := { sub := some sub, iat := some now, exp := some (now + 7 * 24 * 60 * 60),
                scope := some "email_token" },
    sigValid := true, wellFormed := true }

/-- Auth.decode_refresh_token of src/services/auth.py (the class defines it
twice with identical bodies; this is that body). Only JWTError is caught, so a
KeyError from a missing scope or sub key escapes. -/
def decode_refresh_token (now : Int) (t : Token) : Outcome String :=
  match jwtDecode now t with
  | Except.error _ => Outcome.httpError 401 "Could not validate credentials"
  | Except.ok payload =>
    match payload.scope with
    | none => Outcome.keyError "scope"
    | some s =>
      if s = "refresh_token" then
        match payload.sub with
        | none => Outcome.keyError "sub"
        | some email => Outcome.ok email
      else Outcome.httpError 401 "Invalid scope for token"

/-- Auth.get_email_from_token of src/services/auth.py. A JWTError is mapped to
a 422, a wrong scope to a 401, and a missing key escapes as KeyError. -/
def get_email_from_token (now : Int) (t : Token) : Outcome String :=
  match jwtDecode now t with
  | Except.error _ => Outcome.httpError 422 "Invalid token for email verification"
  | Except.ok payload =>
    match payload.scope with
    | none => Outcome.keyError "scope"
    | some s =>
      if s = "email_token" then
        match payload.sub with
        | none => Outcome.keyError "sub"
        | some email => Outcome.ok email
      else Outcome.httpError 401 "Invalid scope for token"

end auth_service

namespace auth_password

/-- AuthPassword.get_hash_password of src/services/auth.py: a second bcrypt
context, modelled by the same deterministic digest. -/
def get_hash_password (password : String) : String :=
  String.append "$2b$" password

end auth_password

/-- Modelled from the spec: the Principal (User) identity record of the data
model section (src/database/models.py is not among the provided sources).
Field names follow the attribute accesses in src/routes/auth.py and
src/repository/users.py: user.password holds the stored digest,
user.refresh_token and user.password_reset_token hold the currently live
tokens or none. Fields the auth claims never touch (id, role, avatar) are
omitted. -/
structure User where
  email : String
  username : String
  password : String
  confirmed : Bool
  refresh_token : Option Token
  password_reset_token : Option Token
deriving DecidableEq, Repr

namespace repository_users

/-- get_user_by_email of src/repository/users.py: first row whose email column
equals the argument. -/
def get_user_by_email (email : String) (db : List User) : Option User :=
  db.find? (fun u => u.email = email)

/-- The update functions of src/repository/users.py all mutate one attribute
of the user object that was fetched by email and commit; with the unique email
key this is an update of the row with that email. -/
def update_by_email (email : String) (g : User → User) (db : List User) : List User :=
  db.map (fun u => if u.email = email then g u else u)

/-- update_token of src/repository/users.py: store a new refresh token (or
null) on the user. -/
def update_token (email : String) (refresh_token : Option Token) (db : List User) : List User :=
  update_by_email email (fun u => { u with refresh_token := refresh_token }) db

/-- confirmed_email of src/repository/users.py: set the confirmed flag. -/
def confirmed_email (email : String) (db : List User) : List User :=
  update_by_email email (fun u => { u with confirmed := true }) db

/-- update_password of src/repository/users.py: store the new password digest. -/
def update_password (email : String) (new_password : String) (db : List User) : List User :=
  update_by_email email (fun u => { u with password := new_password }) db

/-- update_reset_token of src/repository/users.py: store a new reset token (or
null) on the user. -/
def update_reset_token (email : String) (reset_token : Option Token) (db : List User) : List User :=
  update_by_email email (fun u => { u with password_reset_token := reset_token }) db

end repository_users

/-- The access plus refresh pair returned by login and refresh (TokenModel). -/
structure TokenPair where
  access_token : Token
  refresh_token : Token
deriving DecidableEq, Repr

/-- The ResetPassword request body of the set_new_password route. -/
structure ResetPassword where
  reset_password_token : Token
  new_password : String
  confirm_password : String
deriving DecidableEq, Repr

/-- get_current_user of src/services/auth.py: decode, require scope
access_token, read sub, resolve the user; every JWTError, wrong scope and
unknown subject becomes the 401 credentials exception, while a missing dict
key escapes as KeyError. -/
def get_current_user (now : Int) (t : Token) (db : List User) : Outcome User :=
  match jwtDecode now t with
  | Except.error _ => Outcome.httpError 401 "Could not validate credentials"
  | Except.ok payload =>
    match payload.scope with
    | none => Outcome.keyError "scope"
    | some s =>
      if s = "access_token" then
        match payload.sub with
        | none => Outcome.keyError "sub"
        | some email =>
          match repository_users.get_user_by_email email db with
          | none => Outcome.httpError 401 "Could not validate credentials"
          | some user => Outcome.ok user
      else Outcome.httpError 401 "Could not validate credentials"

/-- login of src/routes/auth.py: resolve by email, require confirmed, verify
the password, mint an access and a refresh token, persist the refresh token. -/
def login (db : List User) (username password : String) (now : Int) :
    Outcome TokenPair × List User :=
  match repository_users.get_user_by_email username db with
  | none => (Outcome.httpError 401 "Invalid email", db)
  | some user =>
    if ¬ user.confirmed then (Outcome.httpError 401 "Email not confirmed", db)
    else if ¬ auth_service.verify_password password user.password then
      (Outcome.httpError 401 "Invalid password", db)
    else
      let access_token := auth_service.create_access_token user.email none now
      let new_refresh := auth_service.create_refresh_token user.email none now
      (Outcome.ok ⟨access_token, new_refresh⟩,
        repository_users.update_token user.email (some new_refresh) db)

/-- refresh_token of src/routes/auth.py: decode the presented refresh token,
resolve the subject, compare byte-for-byte with the stored token; a mismatch
clears the stored token and raises 401, a match rotates. The lookup result is
used without a None check, so an unknown subject hits user.refresh_token on
None and raises AttributeError. -/
def refresh_token (now : Int) (db : List User) (credentials : Token) :
    Outcome TokenPair × List User :=
  match auth_service.decode_refresh_token now credentials with
  | Outcome.ok email =>
    match repository_users.get_user_by_email email db with
    | none => (Outcome.attrError "refresh_token", db)
    | some user =>
      if user.refresh_token ≠ some credentials then
        (Outcome.httpError 401 "Invalid refresh token",
          repository_users.update_token email none db)
      else
        let access_token := auth_service.create_access_token email none now
        let new_refresh := auth_service.create_refresh_token email none now
        (Outcome.ok ⟨access_token, new_refresh⟩,
          repository_users.update_token email (some new_refresh) db)
  | Outcome.httpError s d => (Outcome.httpError s d, db)
  | Outcome.keyError k => (Outcome.keyError k, db)
  | Outcome.attrError a => (Outcome.attrError a, db)

/-- confirmed_email of src/routes/auth.py: decode the email token, resolve the
subject (None gives a 400), return a no-op message when already confirmed,
otherwise set confirmed. -/
def confirmed_email_route (now : Int) (db : List User) (token : Token) :
    Outcome String × List User :=
  match auth_service.get_email_from_token now token with
  | Outcome.ok email =>
    match repository_users.get_user_by_email email db with
    | none => (Outcome.httpError 400 "Verification error", db)
    | some user =>
      if user.confirmed then (Outcome.ok "Your email is already confirmed", db)
      else (Outcome.ok "Email confirmed", repository_users.confirmed_email email db)
  | Outcome.httpError s d => (Outcome.httpError s d, db)
  | Outcome.keyError k => (Outcome.keyError k, db)
  | Outcome.attrError a => (Outcome.attrError a, db)

/-- password_reset_confirm of src/routes/auth.py: decode the emailed token,
resolve the subject, mint a reset token and store it. The lookup result is
used without a None check, so an unknown subject hits user.email on None and
raises AttributeError. -/
def password_reset_confirm (now : Int) (db : List User) (token : Token) :
    Outcome Token × List User :=
  match auth_service.get_email_from_token now token with
  | Outcome.ok email =>
    match repository_users.get_user_by_email email db with
    | none => (Outcome.attrError "email", db)
    | some user =>
      let reset_password_token := auth_service.create_email_token user.email now
      (Outcome.ok reset_password_token,
        repository_users.update_reset_token email (some reset_password_token) db)
  | Outcome.httpError s d => (Outcome.httpError s d, db)
  | Outcome.keyError k => (Outcome.keyError k, db)
  | Outcome.attrError a => (Outcome.attrError a, db)

/-- update_password of src/routes/auth.py (the set_new_password route): decode
the presented reset token, resolve the subject (None gives a 400), require the
stored password_reset_token to equal it exactly, require the new and confirm
passwords to agree, then store the new digest and clear the reset token. -/
def update_password (now : Int) (db : List User) (request : ResetPassword) :
    Outcome String × List User :=
  let token := request.reset_password_token
  match auth_service.get_email_from_token now token with
  | Outcome.ok email =>
    match repository_users.get_user_by_email email db with
    | none => (Outcome.httpError 400 "Verification error", db)
    | some user =>
      if user.password_reset_token ≠ some token then
        (Outcome.httpError 401 "Invalid reset token", db)
      else if request.new_password ≠ request.confirm_password then
        (Outcome.httpError 401 "passwords do not match", db)
      else
        let new_password := auth_password.get_hash_password request.new_password
        (Outcome.ok "Password successfully updated",
          repository_users.update_reset_token email none
            (repository_users.update_password email new_password db))
  | Outcome.httpError s d => (Outcome.httpError s d, db)
  | Outcome.keyError k => (Outcome.keyError k, db)
  | Outcome.attrError a => (Outcome.attrError a, db)

/-! Concrete fixtures used to evaluate the model at specific inputs. -/

/-- A refresh token for subject a@b minted at time 0. -/
def rTok : Token := auth_service.create_refresh_token "a@b" none 0

/-- An email-scoped token for subject a@b minted at time 0. -/
def eTok : Token := auth_service.create_email_token "a@b" 0

/-- A well-formed token that is already expired at time 100 and whose
signature does not verify. -/
def expiredBadSig : Token :=
  { claims := { sub := some "a@b", iat := some 0, exp := some 10,
                scope := some "refresh_token" },
    sigValid := false, wellFormed := true }

/-- A well-formed, correctly signed token that is already expired at time 100. -/
def expiredGoodSig : Token :=
  { claims := { sub := some "a@b", iat := some 0, exp := some 10,
                scope := some "refresh_token" },
    sigValid := true, wellFormed := true }

/-- A validly signed, unexpired token whose payload has no scope key. -/
def noScopeToken : Token :=
  { claims := { sub := some "a@b", iat := some 0, exp := some 100, scope := none },
    sigValid := true, wellFormed := true }

/-- A validly signed, unexpired access-scoped token whose payload has no sub
key. -/
def noSubToken : Token :=
  { claims := { sub := none, iat := some 0, exp := some 100,
                scope := some "access_token" },
    sigValid := true, wellFormed := true }

/-- A confirmed user whose stored refresh token is rTok. -/
def uC1 : User :=
  { email := "a@b", username := "u", password := "h", confirmed := true,
    refresh_token := some rTok, password_reset_token := none }

/-- A confirmed user whose stored password reset token is eTok. -/
def uC2 : User :=
  { email := "a@b", username := "u", password := "h", confirmed := true,
    refresh_token := none, password_reset_token := some eTok }

/-- A user who has not yet confirmed their email. -/
def uC7 : User :=
  { email := "a@b", username := "u", password := "h", confirmed := false,
    refresh_token := none, password_reset_token := none }

/-- A confirmed user whose stored digest is the hash of s3cret. -/
def alice : User :=
  { email := "a@b", username := "u",
    password := auth_service.get_password_hash "s3cret", confirmed := true,
    refresh_token := none, password_reset_token := none }

/-- A valid refresh token whose subject g@b is absent from the directory. -/
def ghostRefreshTok : Token := auth_service.create_refresh_token "g@b" none 0

/-- A valid email token whose subject g@b is absent from the directory. -/
def ghostEmailTok : Token := auth_service.create_email_token "g@b" 0

/-- A valid access token whose subject g@b is absent from the directory. -/
def ghostAccessTok : Token := auth_service.create_access_token "g@b" none 0

/-- A reset request carrying eTok with matching new and confirm passwords. -/
def reqC2 : ResetPassword :=
  { reset_password_token := eTok, new_password := "np", confirm_password := "np" }

/-- A reset request whose new and confirm passwords differ. -/
def reqC8 : ResetPassword :=
  { reset_password_token := eTok, new_password := "x", confirm_password := "y" }

/-! Helper lemmas about the user directory. -/

/-- A user found by email has that email. -/
theorem get_user_by_email_eq (email : String) (db : List User) (user : User)
    (h : repository_users.get_user_by_email email db = some user) :
    user.email = email := by
  have := List.find?_some h
  simpa using this

/-- Looking up the same email after an email-preserving row update returns the
updated row. -/
theorem get_user_by_email_update (email : String) (g : User → User) (db : List User)
    (user : User) (hg : ∀ u, (g u).email = u.email)
    (h : repository_users.get_user_by_email email db = some user) :
    repository_users.get_user_by_email email (repository_users.update_by_email email g db) =
      some (g user) := by
  unfold repository_users.get_user_by_email at h ⊢
  unfold repository_users.update_by_email
  rw [List.find?_map]
  have hpred : ((fun u : User => decide (u.email = email)) ∘
      fun u : User => if u.email = email then g u else u) =
      fun u : User => decide (u.email = email) := by
    funext u
    by_cases hu : u.email = email
    · simp [hu, hg]
    · simp [hu]
  rw [hpred, h]
  have huser : user.email = email := by simpa using List.find?_some h
  simp [huser]

/-- C9: an access token minted without an explicit lifetime carries scope
access_token and expires 15 minutes after issuance, a refresh token carries
scope refresh_token and expires 7 days after issuance, an email/reset token
carries scope email_token and expires 7 days after issuance, and every minted
token includes iat and exp claims. -/
theorem C9_minting_defaults (now : Int) (sub : String) :
    (auth_service.create_access_token sub none now).claims.scope = some "access_token" ∧
    (auth_service.create_access_token sub none now).claims.exp = some (now + 15 * 60) ∧
    (auth_service.create_access_token sub none now).claims.iat = some now ∧
    (auth_service.create_refresh_token sub none now).claims.scope = some "refresh_token" ∧
    (auth_service.create_refresh_token sub none now).claims.exp = some (now + 7 * 24 * 60 * 60) ∧
    (auth_service.create_refresh_token sub none now).claims.iat = some now ∧
    (auth_service.create_email_token sub now).claims.scope = some "email_token" ∧
    (auth_service.create_email_token sub now).claims.exp = some (now + 7 * 24 * 60 * 60) ∧
    (auth_service.create_email_token sub now).claims.iat = some now :=
  ⟨rfl, rfl, rfl, rfl, rfl, rfl, rfl, rfl, rfl⟩

/-- C3: a token minted with one scope is rejected with a 401 by each
verification operation expecting a different scope, for all six pairwise
combinations over access_token, refresh_token and email_token. -/
theorem C3_scope_isolation (now m : Int) (sub : String) (db : List User)
    (hfresh : now ≤ m + 15 * 60) :
    get_current_user now (auth_service.create_refresh_token sub none m) db =
      Outcome.httpError 401 "Could not validate credentials" ∧
    get_current_user now (auth_service.create_email_token sub m) db =
      Outcome.httpError 401 "Could not validate credentials" ∧
    auth_service.decode_refresh_token now (auth_service.create_access_token sub none m) =
      Outcome.httpError 401 "Invalid scope for token" ∧
    auth_service.decode_refresh_token now (auth_service.create_email_token sub m) =
      Outcome.httpError 401 "Invalid scope for token" ∧
    auth_service.get_email_from_token now (auth_service.create_access_token sub none m) =
      Outcome.httpError 401 "Invalid scope for token" ∧
    auth_service.get_email_from_token now (auth_service.create_refresh_token sub none m) =
      Outcome.httpError 401 "Invalid scope for token" := by
  have h1 : ¬ (m + 900 < now) := by omega
  have h2 : ¬ (m + 604800 < now) := by omega
  refine ⟨?_, ?_, ?_, ?_, ?_, ?_⟩ <;>
    simp [get_current_user, auth_service.decode_refresh_token,
      auth_service.get_email_from_token, jwtDecode, auth_service.create_access_token,
      auth_service.create_refresh_token, auth_service.create_email_token, h1, h2]

/-- C3 witness: the six rejections at concrete inputs. -/
theorem C3_scope_isolation_witness :
    (0 : Int) ≤ 0 + 15 * 60 ∧
    (get_current_user 0 (auth_service.create_refresh_token "a@b" none 0) [] =
      Outcome.httpError 401 "Could not validate credentials" ∧
    get_current_user 0 (auth_service.create_email_token "a@b" 0) [] =
      Outcome.httpError 401 "Could not validate credentials" ∧
    auth_service.decode_refresh_token 0 (auth_service.create_access_token "a@b" none 0) =
      Outcome.httpError 401 "Invalid scope for token" ∧
    auth_service.decode_refresh_token 0 (auth_service.create_email_token "a@b" 0) =
      Outcome.httpError 401 "Invalid scope for token" ∧
    auth_service.get_email_from_token 0 (auth_service.create_access_token "a@b" none 0) =
      Outcome.httpError 401 "Invalid scope for token" ∧
    auth_service.get_email_from_token 0 (auth_service.create_refresh_token "a@b" none 0) =
      Outcome.httpError 401 "Invalid scope for token") :=
  ⟨by decide, C3_scope_isolation 0 0 "a@b" [] (by decide)⟩

/-- C6 counterexample: a token whose exp claim is in the past but whose
signature is invalid does not fail decode with the Expired error — signature
verification fails first — refuting the claim that decode fails with Expired
regardless of signature validity. -/
theorem C6_counterexample :
    jwtDecode 100 expiredBadSig ≠ Except.error JoseError.expired ∧
    jwtDecode 100 expiredBadSig = Except.error JoseError.badSignature := by
  refine ⟨?_, rfl⟩
  intro h
  rw [show jwtDecode 100 expiredBadSig = Except.error JoseError.badSignature from rfl] at h
  exact absurd (Except.error.inj h) (by decide)

/-- C6 amended: a token whose exp claim is in the past always fails decode;
the failure is Expired exactly when the token is well formed and its signature
is valid, and in every case the verification operations of the service reject
the token (401 from decode_refresh_token and get_current_user, 422 from
get_email_from_token). -/
theorem C6_expired_always_rejected (now e : Int) (t : Token)
    (he : t.claims.exp = some e) (hlt : e < now) :
    (∃ err, jwtDecode now t = Except.error err) ∧
    (t.wellFormed = true → t.sigValid = true →
      jwtDecode now t = Except.error JoseError.expired) ∧
    auth_service.decode_refresh_token now t =
      Outcome.httpError 401 "Could not validate credentials" ∧
    auth_service.get_email_from_token now t =
      Outcome.httpError 422 "Invalid token for email verification" ∧
    ∀ db, get_current_user now t db =
      Outcome.httpError 401 "Could not validate credentials" := by
  have hstep : ∃ err, jwtDecode now t = Except.error err := by
    by_cases hw : t.wellFormed = true
    · by_cases hs : t.sigValid = true
      · exact ⟨JoseError.expired, by simp [jwtDecode, hw, hs, he, hlt]⟩
      · exact ⟨JoseError.badSignature, by simp [jwtDecode, hw, hs]⟩
    · exact ⟨JoseError.malformed, by simp [jwtDecode, hw]⟩
  obtain ⟨err, herr⟩ := hstep
  refine ⟨⟨err, herr⟩, ?_, ?_, ?_, ?_⟩
  · intro hw hs
    simp [jwtDecode, hw, hs, he, hlt]
  · simp [auth_service.decode_refresh_token, herr]
  · simp [auth_service.get_email_from_token, herr]
  · intro db
    simp [get_current_user, herr]

/-- C6 witness: the amended statement at a concrete expired, validly signed
token checked at time 100. -/
theorem C6_expired_always_rejected_witness :
    expiredGoodSig.claims.exp = some 10 ∧ (10 : Int) < 100 ∧
    ((∃ err, jwtDecode 100 expiredGoodSig = Except.error err) ∧
    (expiredGoodSig.wellFormed = true → expiredGoodSig.sigValid = true →
      jwtDecode 100 expiredGoodSig = Except.error JoseError.expired) ∧
    auth_service.decode_refresh_token 100 expiredGoodSig =
      Outcome.httpError 401 "Could not validate credentials" ∧
    auth_service.get_email_from_token 100 expiredGoodSig =
      Outcome.httpError 422 "Invalid token for email verification" ∧
    ∀ db, get_current_user 100 expiredGoodSig db =
      Outcome.httpError 401 "Could not validate credentials") :=
  ⟨rfl, by decide, C6_expired_always_rejected 100 10 expiredGoodSig rfl (by decide)⟩

/-- C10: a validly signed, unexpired token whose payload lacks the scope key
makes all three verification operations raise an escaping KeyError instead of
the 401 credentials error, and an access-scoped payload lacking the sub key
does the same in get_current_user. -/
theorem C10_missing_key_keyerror (now e1 e2 : Int) (t1 t2 : Token)
    (hw1 : t1.wellFormed = true) (hs1 : t1.sigValid = true)
    (he1 : t1.claims.exp = some e1) (hfresh1 : ¬ e1 < now)
    (hscope1 : t1.claims.scope = none)
    (hw2 : t2.wellFormed = true) (hs2 : t2.sigValid = true)
    (he2 : t2.claims.exp = some e2) (hfresh2 : ¬ e2 < now)
    (hscope2 : t2.claims.scope = some "access_token") (hsub2 : t2.claims.sub = none) :
    (∀ db, get_current_user now t1 db = Outcome.keyError "scope") ∧
    auth_service.decode_refresh_token now t1 = Outcome.keyError "scope" ∧
    auth_service.get_email_from_token now t1 = Outcome.keyError "scope" ∧
    (∀ db, get_current_user now t2 db = Outcome.keyError "sub") := by
  have hd1 : jwtDecode now t1 = Except.ok t1.claims := by
    simp [jwtDecode, hw1, hs1, he1, hfresh1]
  have hd2 : jwtDecode now t2 = Except.ok t2.claims := by
    simp [jwtDecode, hw2, hs2, he2, hfresh2]
  refine ⟨?_, ?_, ?_, ?_⟩
  · intro db
    simp [get_current_user, hd1, hscope1]
  · simp [auth_service.decode_refresh_token, hd1, hscope1]
  · simp [auth_service.get_email_from_token, hd1, hscope1]
  · intro db
    simp [get_current_user, hd2, hscope2, hsub2]

/-- C10 witness: the KeyError outcomes at concrete malformed-claims tokens. -/
theorem C10_missing_key_keyerror_witness :
    noScopeToken.wellFormed = true ∧ noScopeToken.sigValid = true ∧
    noScopeToken.claims.exp = some 100 ∧ ¬ (100 : Int) < 0 ∧
    noScopeToken.claims.scope = none ∧
    noSubToken.claims.scope = some "access_token" ∧ noSubToken.claims.sub = none ∧
    ((∀ db, get_current_user 0 noScopeToken db = Outcome.keyError "scope") ∧
    auth_service.decode_refresh_token 0 noScopeToken = Outcome.keyError "scope" ∧
    auth_service.get_email_from_token 0 noScopeToken = Outcome.keyError "scope" ∧
    (∀ db, get_current_user 0 noSubToken db = Outcome.keyError "sub")) :=
  ⟨rfl, rfl, rfl, by decide, rfl, rfl, rfl,
   C10_missing_key_keyerror 0 100 100 noScopeToken noSubToken rfl rfl rfl (by decide) rfl
     rfl rfl rfl (by decide) rfl rfl⟩

/-- C1: for a presented token that decodes with scope refresh_token and whose
subject resolves to a stored user, a byte-for-byte mismatch with the stored
refresh token clears it to null and fails 401, a match mints a fresh pair and
overwrites the stored token with the new refresh token, and hence a second
refresh presenting the old token after one successful rotation fails with the
401 token-mismatch error (the rotated replacement being a different token). -/
theorem C1_refresh_rotation (now later : Int) (db : List User) (t : Token)
    (email : String) (user : User)
    (hdec : auth_service.decode_refresh_token now t = Outcome.ok email)
    (hdec2 : auth_service.decode_refresh_token later t = Outcome.ok email)
    (hfind : repository_users.get_user_by_email email db = some user) :
    (user.refresh_token ≠ some t →
      refresh_token now db t =
        (Outcome.httpError 401 "Invalid refresh token",
          repository_users.update_token email none db)) ∧
    (user.refresh_token = some t →
      refresh_token now db t =
        (Outcome.ok ⟨auth_service.create_access_token email none now,
                     auth_service.create_refresh_token email none now⟩,
          repository_users.update_token email
            (some (auth_service.create_refresh_token email none now)) db)) ∧
    (user.refresh_token = some t →
      auth_service.create_refresh_token email none now ≠ t →
      (refresh_token later (refresh_token now db t).2 t).1 =
        Outcome.httpError 401 "Invalid refresh token") := by
  refine ⟨?_, ?_, ?_⟩
  · intro hne
    simp [refresh_token, hdec, hfind, hne]
  · intro heq
    simp [refresh_token, hdec, hfind, heq]
  · intro heq hne
    have h1 : (refresh_token now db t).2 =
        repository_users.update_token email
          (some (auth_service.create_refresh_token email none now)) db := by
      simp [refresh_token, hdec, hfind, heq]
    have h2 : repository_users.get_user_by_email email
        (repository_users.update_token email
          (some (auth_service.create_refresh_token email none now)) db) =
        some { user with
                refresh_token := some (auth_service.create_refresh_token email none now) } :=
      get_user_by_email_update email _ db user (fun _ => rfl) hfind
    rw [h1]
    simp [refresh_token, hdec2, h2, hne]

/-- C1 witness: the rotation behaviour at a concrete one-user directory whose
stored refresh token rTok (minted at time 0) is presented at times 10 and 20. -/
theorem C1_refresh_rotation_witness :
    auth_service.decode_refresh_token 10 rTok = Outcome.ok "a@b" ∧
    auth_service.decode_refresh_token 20 rTok = Outcome.ok "a@b" ∧
    repository_users.get_user_by_email "a@b" [uC1] = some uC1 ∧
    ((uC1.refresh_token ≠ some rTok →
      refresh_token 10 [uC1] rTok =
        (Outcome.httpError 401 "Invalid refresh token",
          repository_users.update_token "a@b" none [uC1])) ∧
    (uC1.refresh_token = some rTok →
      refresh_token 10 [uC1] rTok =
        (Outcome.ok ⟨auth_service.create_access_token "a@b" none 10,
                     auth_service.create_refresh_token "a@b" none 10⟩,
          repository_users.update_token "a@b"
            (some (auth_service.create_refresh_token "a@b" none 10)) [uC1])) ∧
    (uC1.refresh_token = some rTok →
      auth_service.create_refresh_token "a@b" none 10 ≠ rTok →
      (refresh_token 20 (refresh_token 10 [uC1] rTok).2 rTok).1 =
        Outcome.httpError 401 "Invalid refresh token")) :=
  ⟨by decide, by decide, by decide,
   C1_refresh_rotation 10 20 [uC1] rTok "a@b" uC1 (by decide) (by decide) (by decide)⟩

/-- C2: the set-new-password operation succeeds only when the presented token
decodes with scope email_token and equals the stored password_reset_token
exactly; on success it stores the digest of the new password and clears the
reset token to null, so presenting the same token again fails. -/
theorem C2_reset_single_use (now : Int) (db : List User) (req : ResetPassword)
    (email : String) (user : User)
    (hdec : auth_service.get_email_from_token now req.reset_password_token =
      Outcome.ok email)
    (hfind : repository_users.get_user_by_email email db = some user)
    (hstored : user.password_reset_token = some req.reset_password_token)
    (hpw : req.new_password = req.confirm_password) :
    (update_password now db req).1 = Outcome.ok "Password successfully updated" ∧
    repository_users.get_user_by_email email (update_password now db req).2 =
      some { user with password := auth_password.get_hash_password req.new_password,
                       password_reset_token := none } ∧
    update_password now (update_password now db req).2 req =
      (Outcome.httpError 401 "Invalid reset token", (update_password now db req).2) ∧
    (∀ db2 req2 msg, (update_password now db2 req2).1 = Outcome.ok msg →
      ∃ email2 user2,
        auth_service.get_email_from_token now req2.reset_password_token =
          Outcome.ok email2 ∧
        repository_users.get_user_by_email email2 db2 = some user2 ∧
        user2.password_reset_token = some req2.reset_password_token) := by
  have hstate : (update_password now db req).2 =
      repository_users.update_reset_token email none
        (repository_users.update_password email
          (auth_password.get_hash_password req.new_password) db) := by
    simp [update_password, hdec, hfind, hstored, hpw]
  have hfind1 : repository_users.get_user_by_email email
      (repository_users.update_password email
        (auth_password.get_hash_password req.new_password) db) =
      some { user with password := auth_password.get_hash_password req.new_password } :=
    get_user_by_email_update email _ db user (fun _ => rfl) hfind
  have hfind2 : repository_users.get_user_by_email email
      (repository_users.update_reset_token email none
        (repository_users.update_password email
          (auth_password.get_hash_password req.new_password) db)) =
      some { user with password := auth_password.get_hash_password req.new_password,
                       password_reset_token := none } :=
    get_user_by_email_update email (fun u => { u with password_reset_token := none })
      (repository_users.update_password email
        (auth_password.get_hash_password req.new_password) db)
      { user with password := auth_password.get_hash_password req.new_password }
      (fun _ => rfl) hfind1
  refine ⟨?_, ?_, ?_, ?_⟩
  · simp [update_password, hdec, hfind, hstored, hpw]
  · rw [hstate]
    exact hfind2
  · rw [hstate]
    simp [update_password, hdec, hfind2]
  · intro db2 req2 msg hok
    cases hd : auth_service.get_email_from_token now req2.reset_password_token with
    | ok email2 =>
      cases hf : repository_users.get_user_by_email email2 db2 with
      | none => simp [update_password, hd, hf] at hok
      | some user2 =>
        by_cases hst : user2.password_reset_token ≠ some req2.reset_password_token
        · simp [update_password, hd, hf, hst] at hok
        · push_neg at hst
          exact ⟨email2, user2, rfl, hf, hst⟩
    | httpError s d => simp [update_password, hd] at hok
    | keyError k => simp [update_password, hd] at hok
    | attrError a => simp [update_password, hd] at hok

/-- C2 witness: the single-use reset at a concrete one-user directory whose
stored reset token eTok (minted at time 0) is presented at time 10. -/
theorem C2_reset_single_use_witness :
    auth_service.get_email_from_token 10 reqC2.reset_password_token = Outcome.ok "a@b" ∧
    repository_users.get_user_by_email "a@b" [uC2] = some uC2 ∧
    uC2.password_reset_token = some reqC2.reset_password_token ∧
    reqC2.new_password = reqC2.confirm_password ∧
    ((update_password 10 [uC2] reqC2).1 = Outcome.ok "Password successfully updated" ∧
    repository_users.get_user_by_email "a@b" (update_password 10 [uC2] reqC2).2 =
      some { uC2 with password := auth_password.get_hash_password reqC2.new_password,
                      password_reset_token := none } ∧
    update_password 10 (update_password 10 [uC2] reqC2).2 reqC2 =
      (Outcome.httpError 401 "Invalid reset token", (update_password 10 [uC2] reqC2).2) ∧
    (∀ db2 req2 msg, (update_password 10 db2 req2).1 = Outcome.ok msg →
      ∃ email2 user2,
        auth_service.get_email_from_token 10 req2.reset_password_token =
          Outcome.ok email2 ∧
        repository_users.get_user_by_email email2 db2 = some user2 ∧
        user2.password_reset_token = some req2.reset_password_token)) :=
  ⟨by decide, by decide, by decide, rfl,
   C2_reset_single_use 10 [uC2] reqC2 "a@b" uC2 (by decide) (by decide) (by decide) rfl⟩

/-- C7: confirming with a valid email-scoped token whose subject resolves sets
confirmed to true when it was false, returns a no-op success message with no
state change when it was already true, and replaying the call after a first
run returns the no-op message and leaves the directory unchanged. -/
theorem C7_confirm_idempotent (now : Int) (db : List User) (t : Token)
    (email : String) (user : User)
    (hdec : auth_service.get_email_from_token now t = Outcome.ok email)
    (hfind : repository_users.get_user_by_email email db = some user) :
    (user.confirmed = false →
      confirmed_email_route now db t =
        (Outcome.ok "Email confirmed", repository_users.confirmed_email email db) ∧
      repository_users.get_user_by_email email
        (repository_users.confirmed_email email db) =
        some { user with confirmed := true }) ∧
    (user.confirmed = true →
      confirmed_email_route now db t = (Outcome.ok "Your email is already confirmed", db)) ∧
    confirmed_email_route now (confirmed_email_route now db t).2 t =
      (Outcome.ok "Your email is already confirmed",
        (confirmed_email_route now db t).2) := by
  have hupd : repository_users.get_user_by_email email
      (repository_users.confirmed_email email db) = some { user with confirmed := true } :=
    get_user_by_email_update email _ db user (fun _ => rfl) hfind
  refine ⟨fun hc => ⟨?_, hupd⟩, fun hc => ?_, ?_⟩
  · simp [confirmed_email_route, hdec, hfind, hc]
  · simp [confirmed_email_route, hdec, hfind, hc]
  · cases hc : user.confirmed with
    | true =>
      have h1 : (confirmed_email_route now db t).2 = db := by
        simp [confirmed_email_route, hdec, hfind, hc]
      rw [h1]
      simp [confirmed_email_route, hdec, hfind, hc]
    | false =>
      have h1 : (confirmed_email_route now db t).2 =
          repository_users.confirmed_email email db := by
        simp [confirmed_email_route, hdec, hfind, hc]
      rw [h1]
      simp [confirmed_email_route, hdec, hupd]

/-- C7 witness: the idempotent confirmation at a concrete directory holding
one unconfirmed user, with eTok presented at time 10. -/
theorem C7_confirm_idempotent_witness :
    auth_service.get_email_from_token 10 eTok = Outcome.ok "a@b" ∧
    repository_users.get_user_by_email "a@b" [uC7] = some uC7 ∧
    ((uC7.confirmed = false →
      confirmed_email_route 10 [uC7] eTok =
        (Outcome.ok "Email confirmed", repository_users.confirmed_email "a@b" [uC7]) ∧
      repository_users.get_user_by_email "a@b"
        (repository_users.confirmed_email "a@b" [uC7]) =
        some { uC7 with confirmed := true }) ∧
    (uC7.confirmed = true →
      confirmed_email_route 10 [uC7] eTok =
        (Outcome.ok "Your email is already confirmed", [uC7])) ∧
    confirmed_email_route 10 (confirmed_email_route 10 [uC7] eTok).2 eTok =
      (Outcome.ok "Your email is already confirmed",
        (confirmed_email_route 10 [uC7] eTok).2)) :=
  ⟨by decide, by decide,
   C7_confirm_idempotent 10 [uC7] eTok "a@b" uC7 (by decide) (by decide)⟩

/-- C8: when the supplied new and confirm passwords differ the set-new-password
operation never succeeds and leaves the directory unchanged on every path, and
on the reachable path (token decodes, subject resolves, stored token matches)
it fails with the 401 password-mismatch error. -/
theorem C8_password_mismatch_pure (now : Int) (db : List User) (req : ResetPassword)
    (hpw : req.new_password ≠ req.confirm_password) :
    (update_password now db req).2 = db ∧
    (∀ msg, (update_password now db req).1 ≠ Outcome.ok msg) ∧
    (∀ email user,
      auth_service.get_email_from_token now req.reset_password_token = Outcome.ok email →
      repository_users.get_user_by_email email db = some user →
      user.password_reset_token = some req.reset_password_token →
      update_password now db req =
        (Outcome.httpError 401 "passwords do not match", db)) := by
  have hmain : (update_password now db req).2 = db ∧
      ∀ msg, (update_password now db req).1 ≠ Outcome.ok msg := by
    cases hd : auth_service.get_email_from_token now req.reset_password_token with
    | ok email =>
      cases hf : repository_users.get_user_by_email email db with
      | none => simp [update_password, hd, hf]
      | some user =>
        by_cases hst : user.password_reset_token ≠ some req.reset_password_token
        · simp [update_password, hd, hf, hst]
        · simp [update_password, hd, hf, hst, hpw]
    | httpError s d => simp [update_password, hd]
    | keyError k => simp [update_password, hd]
    | attrError a => simp [update_password, hd]
  refine ⟨hmain.1, hmain.2, ?_⟩
  intro email user hd hf hstored
  simp [update_password, hd, hf, hstored, hpw]

/-- C8 witness: the mutation-free failure at a concrete directory and a
request whose new and confirm passwords differ. -/
theorem C8_password_mismatch_pure_witness :
    reqC8.new_password ≠ reqC8.confirm_password ∧
    ((update_password 10 [uC2] reqC8).2 = [uC2] ∧
    (∀ msg, (update_password 10 [uC2] reqC8).1 ≠ Outcome.ok msg) ∧
    (∀ email user,
      auth_service.get_email_from_token 10 reqC8.reset_password_token = Outcome.ok email →
      repository_users.get_user_by_email email [uC2] = some user →
      user.password_reset_token = some reqC8.reset_password_token →
      update_password 10 [uC2] reqC8 =
        (Outcome.httpError 401 "passwords do not match", [uC2]))) :=
  ⟨by decide, C8_password_mismatch_pure 10 [uC2] reqC8 (by decide)⟩

/-- C4: the code contradicts the claim that a well-formed, correctly scoped,
unexpired token with an unknown subject always yields a 401: the refresh route
and the password-reset-confirm route dereference the missing user and raise an
escaping AttributeError (a 500 crash), while get_current_user does return the
401. Evaluated at ghost tokens for a subject absent from the directory. -/
theorem C4_unknown_subject_crash :
    refresh_token 10 [alice] ghostRefreshTok = (Outcome.attrError "refresh_token", [alice]) ∧
    password_reset_confirm 10 [alice] ghostEmailTok = (Outcome.attrError "email", [alice]) ∧
    get_current_user 10 ghostAccessTok [alice] =
      Outcome.httpError 401 "Could not validate credentials" := by
  refine ⟨by decide, by decide, by decide⟩

/-- C5: the code contradicts the claim that a login against an absent email
and a login with a wrong password are indistinguishable at the message level:
both return status 401 but the detail strings differ, Invalid email versus
Invalid password. Evaluated at a concrete one-user directory. -/
theorem C5_login_messages_distinguishable :
    (login [alice] "z@b" "s3cret" 0).1 = Outcome.httpError 401 "Invalid email" ∧
    (login [alice] "a@b" "wrong" 0).1 = Outcome.httpError 401 "Invalid password" ∧
    "Invalid email" ≠ "Invalid password" := by
  refine ⟨by decide, by decide, by decide⟩

end GoitAuth
